import Mathlib

/-!
# Verification of the restaurant-ui authenticated request gateway

Shallow embedding of the API-client layer of the `restaurant-ui` repository:
the authenticated fetch wrapper `authorizedFetch`, the token provider
`authenticate`, the error-reclassifying `fetchWithAuth`, the server action
`getMenuItems` (ActionResult pattern with Zod-style validation), and the
`StarRating` presentation helper.

The HTTP environment is modelled explicitly: a `FetchEnv` supplies the
response of the n-th `fetch` call made by a gateway invocation and the
boolean outcome of `authenticate()`.  Each gateway function returns, besides
its value, the trace of requests it issued, so that retry / no-retry
properties are statable.
-/

/-- JSON values, as produced by `response.json()`. -/
inductive Json where
  | str (s : String)
  | num (n : Int)
  | jbool (b : Bool)
  | null
  | arr (elems : List Json)
  | obj (fields : List (String × Json))

/-- An HTTP response: the status code and the parsed JSON body. -/
structure Response where
  status : Nat
  body : Json

/-- `response.ok` in the fetch API: status in the success range 200..299. -/
def Response.ok (r : Response) : Bool :=
  decide (200 ≤ r.status) && decide (r.status < 300)

/-- Header maps model the JS object used for `headers`: an association list
where a later binding for the same key overrides an earlier one, exactly as
in an object literal `\x7b...spread, k: v\x7d`. -/
abbrev HeaderMap := List (String × String)

/-- Look a key up in a `HeaderMap`; the LAST binding for the key wins,
mirroring JS object-literal override semantics. -/
def lookupHeader : HeaderMap → String → Option String
  | [], _ => none
  | (k, v) :: rest, key =>
    match lookupHeader rest key with
    | some v2 => some v2
    | none => if k = key then some v else none

/-- The caller-supplied `RequestInit` options object of the fetch API
(the fields the source code reads or forwards). -/
structure RequestInit where
  method : Option String
  headers : HeaderMap
  body : Option String
  credentials : Option String

/-- The empty options object: TS default `options: RequestInit = \x7b\x7d`. -/
def RequestInit.empty : RequestInit := ⟨none, [], none, none⟩

/-- A concrete request as issued by `fetch(url, \x7b...options, headers:
\x7b...options.headers, "Content-Type": ..., Accept: ...\x7d, credentials:
"include"\x7d)`. -/
structure Request where
  url : String
  method : Option String
  headers : HeaderMap
  body : Option String
  credentials : Option String

/-- The header object built by `authorizedFetch`:
`\x7b...options.headers, "Content-Type": "application/json", Accept:
"application/json"\x7d`.  The forced keys are appended, hence (by
last-binding-wins lookup) override any caller-supplied binding. -/
def forceHeaders (h : HeaderMap) : HeaderMap :=
  h ++ [("Content-Type", "application/json"), ("Accept", "application/json")]

/-- The request descriptor `authorizedFetch` passes to `fetch` (identical for
the initial attempt and the retry). -/
def mkRequest (url : String) (options : RequestInit) : Request :=
  { url := url
    method := options.method
    headers := forceHeaders options.headers
    body := options.body
    credentials := some "include" }

/-- Trace events: a `fetch` call with its full request descriptor, or a call
to `authenticate()`. -/
inductive Event where
  | fetchEv (req : Request)
  | authEv

/-- Errors thrown by the JS code, tagged by their class (`instanceof`
distinctions matter to the catch blocks). -/
structure ApiError where
  message : String
  status : Nat
  code : Option String

/-- A thrown JS error value: a plain `Error`, an `ApiError`, or a Zod
validation error. -/
inductive JsError where
  | error (message : String)
  | apiError (e : ApiError)
  | zodError (message : String)

/-- The `message` property of a thrown error (all three classes extend
`Error`). -/
def JsError.message : JsError → String
  | .error m => m
  | .apiError e => e.message
  | .zodError m => m

/-- The HTTP environment of one gateway invocation: `fetchResp n` is the
response the n-th `fetch` call resolves with (`authorizedFetch` makes at
most two), and `authOk` is the boolean `authenticate()` resolves with. -/
structure FetchEnv where
  fetchResp : Nat → Response
  authOk : Bool

/-- `authorizedFetch(url, options)` from `src/actions/auth.ts`:
issue the request with forced JSON headers and `credentials: "include"`;
on a 401, call `authenticate()` — if it fails throw
`Error("Authentication failed")`, otherwise reissue the identical request
once; finally, if the (possibly retried) response is not ok, throw
`` Error(`API error: $\x7bresponse.status\x7d`) ``, else return the response.
Returns the outcome together with the trace of issued calls. -/
def authorizedFetch (env : FetchEnv) (url : String) (options : RequestInit) :
    Except JsError Response × List Event :=
  let req := mkRequest url options
  let response := env.fetchResp 0
  if response.status = 401 then
    if env.authOk then
      let retried := env.fetchResp 1
      if retried.ok then
        (.ok retried, [.fetchEv req, .authEv, .fetchEv req])
      else
        (.error (.error ("API error: " ++ toString retried.status)),
         [.fetchEv req, .authEv, .fetchEv req])
    else
      (.error (.error "Authentication failed"), [.fetchEv req, .authEv])
  else
    if response.ok then
      (.ok response, [.fetchEv req])
    else
      (.error (.error ("API error: " ++ toString response.status)),
       [.fetchEv req])

/-- Number of `authenticate()` calls recorded in a trace. -/
def countAuthEvents : List Event → Nat
  | [] => 0
  | .authEv :: rest => countAuthEvents rest + 1
  | .fetchEv _ :: rest => countAuthEvents rest

/-- Number of `fetch` calls recorded in a trace. -/
def countFetchEvents : List Event → Nat
  | [] => 0
  | .fetchEv _ :: rest => countFetchEvents rest + 1
  | .authEv :: rest => countFetchEvents rest

/-- Environment whose first fetch resolves with `r0` and whose later fetches
resolve with `r1`, with `authenticate()` resolving `auth`. -/
def envTwo (r0 r1 : Response) (auth : Bool) : FetchEnv :=
  ⟨fun n => if n = 0 then r0 else r1, auth⟩

example :
    (authorizedFetch (envTwo ⟨401, .null⟩ ⟨200, .null⟩ true) "u"
      RequestInit.empty).1 = .ok ⟨200, .null⟩ := rfl

example :
    (authorizedFetch (envTwo ⟨401, .null⟩ ⟨200, .null⟩ false) "u"
      RequestInit.empty).1 = .error (.error "Authentication failed") := rfl

/-! ## Token provider (`authenticate`, `src/actions/auth.ts`) -/

/-- UTF-8 encoding of a single character as byte values (what
`Buffer.from(string)` produces per character). -/
def utf8Bytes (c : Char) : List Nat :=
  let n := c.toNat
  if n < 128 then [n]
  else if n < 2048 then [192 + n / 64, 128 + n % 64]
  else if n < 65536 then
    [224 + n / 4096, 128 + n / 64 % 64, 128 + n % 64]
  else
    [240 + n / 262144, 128 + n / 4096 % 64, 128 + n / 64 % 64, 128 + n % 64]

/-- UTF-8 bytes of a string. -/
def strUtf8 (s : String) : List Nat :=
  (s.data.map utf8Bytes).flatten

/-- The base64 alphabet. -/
def b64Alphabet : List Char :=
  "ABCDEFGHIJKLMNOPQRSTUVWXYZabcdefghijklmnopqrstuvwxyz0123456789+/".data

/-- The base64 digit for a 6-bit value. -/
def b64Char (n : Nat) : Char := b64Alphabet.getD n 'A'

/-- base64-encode a byte list, three bytes to four digits, `=`-padded. -/
def b64Chunks : List Nat → List Char
  | b0 :: b1 :: b2 :: rest =>
    b64Char (b0 / 4) :: b64Char (b0 % 4 * 16 + b1 / 16) ::
      b64Char (b1 % 16 * 4 + b2 / 64) :: b64Char (b2 % 64) :: b64Chunks rest
  | [b0, b1] =>
    [b64Char (b0 / 4), b64Char (b0 % 4 * 16 + b1 / 16), b64Char (b1 % 16 * 4),
     '=']
  | [b0] => [b64Char (b0 / 4), b64Char (b0 % 4 * 16), '=', '=']
  | [] => []

/-- `Buffer.from(s).toString("base64")`. -/
def base64 (s : String) : String := String.mk (b64Chunks (strUtf8 s))

example : base64 ("client" ++ ":" ++ "secret") = "Y2xpZW50OnNlY3JldA==" := rfl

/-- The request `authenticate()` sends to the token endpoint: a POST with a
form-encoded body (`URLSearchParams`), a Basic authorization header, and
credential inclusion. -/
structure TokenRequest where
  url : String
  method : String
  contentType : String
  authorization : String
  formBody : List (String × String)
  credentials : String

/-- The result the token-endpoint `fetch` settles with: a response, or a
rejection (network failure). -/
inductive TokenFetchResult where
  | fetched (r : Response)
  | netFailure (message : String)

/-- Environment of one `authenticate()` invocation: the resolved client id
and secret (`process.env.API_CLIENT_ID || "client"` etc.), the base URL, and
how the token-endpoint fetch settles. -/
structure AuthEnv where
  baseUrl : String
  clientId : String
  clientSecret : String
  tokenResult : TokenFetchResult

/-- The token request a given `AuthEnv` gives rise to. -/
def authTokenRequest (env : AuthEnv) : TokenRequest :=
  { url := env.baseUrl ++ "/oauth2/token"
    method := "POST"
    contentType := "application/x-www-form-urlencoded"
    authorization :=
      "Basic " ++ base64 (env.clientId ++ ":" ++ env.clientSecret)
    formBody := [("grant_type", "client_credentials"), ("scope", "write")]
    credentials := "include" }

/-- `authenticate()` from `src/actions/auth.ts`: POST the client-credentials
form to `$\x7bBASE_URL\x7d/oauth2/token` with Basic auth; return `false` when
the response is not ok or the fetch rejects (the catch block), `true`
otherwise.  Returns the boolean together with the requests issued. -/
def authenticate (env : AuthEnv) : Bool × List TokenRequest :=
  let req := authTokenRequest env
  match env.tokenResult with
  | .netFailure _ => (false, [req])
  | .fetched response =>
    if !response.ok then (false, [req]) else (true, [req])

/-! ## `fetchWithAuth` (`src/lib/api-client.ts`) -/

/-- `a.includes(b)` on strings: `b` occurs as a contiguous substring. -/
def isPrefixL : List Char → List Char → Bool
  | [], _ => true
  | _ :: _, [] => false
  | a :: as, b :: bs => a = b && isPrefixL as bs

/-- Substring occurrence over character lists. -/
def containsL (pat : List Char) : List Char → Bool
  | [] => isPrefixL pat []
  | c :: cs => isPrefixL pat (c :: cs) || containsL pat cs

/-- JS `s.includes(pat)`. -/
def strIncludes (s pat : String) : Bool := containsL pat.data s.data

example : strIncludes "API error: 401" "API error: 401" = true := rfl
example : strIncludes "API error: 404" "API error: 401" = false := rfl

/-- The catch block of `fetchWithAuth`: an error whose message includes
"API error: 401" becomes `ApiError("Authentication failed", 401)`; any other
`Error` becomes `ApiError(error.message, 500)`. -/
def classifyFetchError (msg : String) : ApiError :=
  if strIncludes msg "API error: 401" then
    ⟨"Authentication failed", 401, none⟩
  else
    ⟨msg, 500, none⟩

/-- `fetchWithAuth(endpoint, options)` from `src/lib/api-client.ts`:
call `authorizedFetch` on `API_URL + endpoint`, return `response.json()`,
and reclassify every thrown error as an `ApiError` via its message. -/
def fetchWithAuth (env : FetchEnv) (API_URL endpoint : String)
    (options : RequestInit) : Except ApiError Json :=
  match (authorizedFetch env (API_URL ++ endpoint) options).1 with
  | .ok response => .ok response.body
  | .error e => .error (classifyFetchError e.message)

/-! ## Server action `getMenuItems` (`src/actions/api.ts`) -/

/-- A validated menu item: the fields `menuItemSchema` declares
(`z.object(\x7bid: z.string(), name: z.string(), ...\x7d)`). -/
structure MenuItem where
  id : String
  name : String

/-- First binding of a key in a JSON object. -/
def jsonLookup : List (String × Json) → String → Option Json
  | [], _ => none
  | (k, v) :: rest, key => if k = key then some v else jsonLookup rest key

/-- `menuItemSchema.parse`: the value must be an object whose `id` and
`name` fields are strings (extra fields are ignored, as Zod objects strip
unknown keys). -/
def parseMenuItem (j : Json) : Except String MenuItem :=
  match j with
  | .obj fields =>
    match jsonLookup fields "id", jsonLookup fields "name" with
    | some (.str i), some (.str n) => .ok ⟨i, n⟩
    | _, _ => .error "Expected string at id or name"
  | _ => .error "Expected object, received other"

/-- Element-wise validation for `z.array(menuItemSchema)`. -/
def parseMenuItemList : List Json → Except String (List MenuItem)
  | [] => .ok []
  | x :: xs =>
    match parseMenuItem x, parseMenuItemList xs with
    | .ok m, .ok ms => .ok (m :: ms)
    | .error e, _ => .error e
    | _, .error e => .error e

/-- `z.array(menuItemSchema).parse(data)`: a `ZodError` message on failure,
the validated list on success. -/
def parseMenuItems (j : Json) : Except String (List MenuItem) :=
  match j with
  | .arr xs => parseMenuItemList xs
  | _ => .error "Expected array, received other"

/-- `ActionResult<T>`: `\x7bsuccess: true, data\x7d` or `\x7bsuccess: false,
error, code?, status?\x7d`. -/
inductive ActionResult (T : Type) where
  | success (data : T)
  | failure (error : String) (code : Option String) (status : Option Nat)

/-- The catch block of `getMenuItems`, branching on the class of the thrown
error: `ApiError` keeps message/code/status, `ZodError` becomes
`"Invalid data format: ..."` with code `VALIDATION_ERROR`, any other
`Error` keeps only its message. -/
def menuCatch : JsError → ActionResult (List MenuItem)
  | .apiError e => .failure e.message e.code (some e.status)
  | .zodError m =>
    .failure ("Invalid data format: " ++ m) (some "VALIDATION_ERROR") none
  | .error m => .failure m none none

/-- `getMenuItems()` from `src/actions/api.ts`: `authorizedFetch` the menu
endpoint (default options), parse the JSON body against
`z.array(menuItemSchema)`, and wrap every outcome in an `ActionResult`. -/
def getMenuItems (env : FetchEnv) (BASE_URL : String) :
    ActionResult (List MenuItem) :=
  match (authorizedFetch env (BASE_URL ++ "/api/menu") RequestInit.empty).1
    with
  | .error e => menuCatch e
  | .ok response =>
    match parseMenuItems response.body with
    | .ok items => .success items
    | .error zmsg => menuCatch (.zodError zmsg)

/-! ## `StarRating` (`src/components/testimonial-section.tsx`) -/

/-- The three star glyphs `StarRating` can render at a position: a filled
`Star`, a filled `StarHalf`, or an unfilled `Star`. -/
inductive StarKind where
  | full
  | half
  | empty
deriving DecidableEq, Repr

/-- `StarRating(\x7brating\x7d)`: map over `[1, 2, 3, 4, 5]`, rendering a
full star when `star <= Math.floor(rating)`, else a half star when
`star - 0.5 === rating`, else an empty star.  JS numbers are modelled as
rationals (every finite double is one; `Math.floor` is `Int.floor`). -/
def StarRating (rating : ℚ) : List StarKind :=
  [1, 2, 3, 4, 5].map (fun star =>
    if (star : ℚ) ≤ (⌊rating⌋ : ℚ) then .full
    else if (star : ℚ) - 0.5 = rating then .half
    else .empty)

example : StarRating 3.5 = [.full, .full, .full, .half, .empty] := by
  norm_num [StarRating]
example : StarRating (-2) = [.empty, .empty, .empty, .empty, .empty] := by
  norm_num [StarRating]
example : StarRating 7 = [.full, .full, .full, .full, .full] := by
  norm_num [StarRating]

/-! ## Claims about the gateway -/

/-- C1: when the first fetch returns 401 and `authenticate()` succeeds,
exactly one retry is issued — a second fetch with the very same request
descriptor (same url, same caller options, same forced headers, credentials
included) — and the gateway's outcome is computed from that retried
response. -/
theorem authorizedFetch_retries_once_after_reauth
    (env : FetchEnv) (url : String) (options : RequestInit)
    (h401 : (env.fetchResp 0).status = 401)
    (hauth : env.authOk = true) :
    (authorizedFetch env url options).2 =
      [.fetchEv (mkRequest url options), .authEv,
       .fetchEv (mkRequest url options)] ∧
    countFetchEvents (authorizedFetch env url options).2 = 2 ∧
    (authorizedFetch env url options).1 =
      (if (env.fetchResp 1).ok then .ok (env.fetchResp 1)
       else .error
         (.error ("API error: " ++ toString (env.fetchResp 1).status))) := by
  unfold authorizedFetch
  cases hok : (env.fetchResp 1).ok <;>
    simp [h401, hauth, hok, countFetchEvents]

/-- C1 witness: 401 then 200 with successful re-authentication. -/
theorem authorizedFetch_retries_once_after_reauth_witness :
    (authorizedFetch (envTwo ⟨401, .null⟩ ⟨200, .null⟩ true) "u"
        RequestInit.empty).2 =
      [.fetchEv (mkRequest "u" RequestInit.empty), .authEv,
       .fetchEv (mkRequest "u" RequestInit.empty)] ∧
    countFetchEvents
      (authorizedFetch (envTwo ⟨401, .null⟩ ⟨200, .null⟩ true) "u"
        RequestInit.empty).2 = 2 ∧
    (authorizedFetch (envTwo ⟨401, .null⟩ ⟨200, .null⟩ true) "u"
        RequestInit.empty).1 =
      (if ((envTwo ⟨401, .null⟩ ⟨200, .null⟩ true).fetchResp 1).ok then
        .ok ((envTwo ⟨401, .null⟩ ⟨200, .null⟩ true).fetchResp 1)
       else .error (.error ("API error: " ++
         toString ((envTwo ⟨401, .null⟩ ⟨200, .null⟩ true).fetchResp
           1).status))) :=
  authorizedFetch_retries_once_after_reauth
    (envTwo ⟨401, .null⟩ ⟨200, .null⟩ true) "u" RequestInit.empty rfl rfl

/-- C2: when the first fetch returns 401 and `authenticate()` returns false,
the call throws `Error("Authentication failed")` and no retry request is
issued (the trace holds a single fetch); at the ActionResult level,
`getMenuItems` surfaces this as
`\x7bsuccess: false, error: "Authentication failed"\x7d`. -/
theorem authorizedFetch_failed_reauth_no_retry
    (env : FetchEnv) (url BASE_URL : String) (options : RequestInit)
    (h401 : (env.fetchResp 0).status = 401)
    (hauth : env.authOk = false) :
    (authorizedFetch env url options).1 =
      .error (.error "Authentication failed") ∧
    (authorizedFetch env url options).2 =
      [.fetchEv (mkRequest url options), .authEv] ∧
    countFetchEvents (authorizedFetch env url options).2 = 1 ∧
    getMenuItems env BASE_URL = .failure "Authentication failed" none none := by
  have hcore : (authorizedFetch env url options).1 =
      .error (.error "Authentication failed") ∧
      (authorizedFetch env url options).2 =
        [.fetchEv (mkRequest url options), .authEv] := by
    unfold authorizedFetch
    simp [h401, hauth]
  refine ⟨hcore.1, hcore.2, ?_, ?_⟩
  · rw [hcore.2]; rfl
  · unfold getMenuItems
    have : (authorizedFetch env (BASE_URL ++ "/api/menu")
        RequestInit.empty).1 = .error (.error "Authentication failed") := by
      unfold authorizedFetch
      simp [h401, hauth]
    rw [this]
    rfl

/-- C2 witness: 401 with failing re-authentication. -/
theorem authorizedFetch_failed_reauth_no_retry_witness :
    (authorizedFetch (envTwo ⟨401, .null⟩ ⟨200, .null⟩ false) "u"
        RequestInit.empty).1 = .error (.error "Authentication failed") ∧
    (authorizedFetch (envTwo ⟨401, .null⟩ ⟨200, .null⟩ false) "u"
        RequestInit.empty).2 =
      [.fetchEv (mkRequest "u" RequestInit.empty), .authEv] ∧
    countFetchEvents
      (authorizedFetch (envTwo ⟨401, .null⟩ ⟨200, .null⟩ false) "u"
        RequestInit.empty).2 = 1 ∧
    getMenuItems (envTwo ⟨401, .null⟩ ⟨200, .null⟩ false)
        "http://localhost:8080" =
      .failure "Authentication failed" none none :=
  authorizedFetch_failed_reauth_no_retry
    (envTwo ⟨401, .null⟩ ⟨200, .null⟩ false) "u" "http://localhost:8080"
    RequestInit.empty rfl rfl

/-- C3: `authenticate()` is invoked at most once per `authorizedFetch` call,
and a second 401 on the retried request is terminal: the call throws
`Error("API error: 401")` after exactly two fetches and one
re-authentication, attempting nothing further. -/
theorem authorizedFetch_at_most_one_reauth
    (env : FetchEnv) (url : String) (options : RequestInit) :
    countAuthEvents (authorizedFetch env url options).2 ≤ 1 ∧
    ((env.fetchResp 0).status = 401 → env.authOk = true →
      (env.fetchResp 1).status = 401 →
      (authorizedFetch env url options).1 =
        .error (.error "API error: 401") ∧
      (authorizedFetch env url options).2 =
        [.fetchEv (mkRequest url options), .authEv,
         .fetchEv (mkRequest url options)] ∧
      countFetchEvents (authorizedFetch env url options).2 = 2 ∧
      countAuthEvents (authorizedFetch env url options).2 = 1) := by
  constructor
  · unfold authorizedFetch
    by_cases h1 : (env.fetchResp 0).status = 401 <;>
    by_cases h2 : env.authOk = true <;>
    by_cases h3 : (env.fetchResp 1).ok = true <;>
    by_cases h4 : (env.fetchResp 0).ok = true <;>
      simp [h1, h2, h3, h4, countAuthEvents]
  · intro h401 hauth h401r
    have hok : (env.fetchResp 1).ok = false := by
      simp [Response.ok, h401r]
    unfold authorizedFetch
    simp [h401, hauth, hok, h401r, countFetchEvents, countAuthEvents]
    rfl

/-- C3 witness: two consecutive 401 responses with successful
re-authentication in between. -/
theorem authorizedFetch_at_most_one_reauth_witness :
    countAuthEvents
      (authorizedFetch (envTwo ⟨401, .null⟩ ⟨401, .null⟩ true) "u"
        RequestInit.empty).2 ≤ 1 ∧
    (authorizedFetch (envTwo ⟨401, .null⟩ ⟨401, .null⟩ true) "u"
        RequestInit.empty).1 = .error (.error "API error: 401") ∧
    countFetchEvents
      (authorizedFetch (envTwo ⟨401, .null⟩ ⟨401, .null⟩ true) "u"
        RequestInit.empty).2 = 2 ∧
    countAuthEvents
      (authorizedFetch (envTwo ⟨401, .null⟩ ⟨401, .null⟩ true) "u"
        RequestInit.empty).2 = 1 :=
  have h := authorizedFetch_at_most_one_reauth
    (envTwo ⟨401, .null⟩ ⟨401, .null⟩ true) "u" RequestInit.empty
  have h2 := h.2 rfl rfl rfl
  ⟨h.1, h2.1, h2.2.2.1, h2.2.2.2⟩

/-- Whether a gateway outcome is a thrown `ApiError` instance (as opposed to
a plain `Error` or a returned response). -/
def isApiErrorThrow : Except JsError Response → Bool
  | .error (.apiError _) => true
  | _ => false

/-- C4 counterexample: a first response with status 500 (non-401) is NOT
returned verbatim — the gateway throws `Error("API error: 500")` instead of
returning the response. -/
theorem authorizedFetch_non401_verbatim_counterexample :
    (authorizedFetch (envTwo ⟨500, .null⟩ ⟨500, .null⟩ true) "u"
        RequestInit.empty).1 ≠
      .ok ((envTwo ⟨500, .null⟩ ⟨500, .null⟩ true).fetchResp 0) ∧
    (authorizedFetch (envTwo ⟨500, .null⟩ ⟨500, .null⟩ true) "u"
        RequestInit.empty).1 = .error (.error "API error: 500") := by
  constructor
  · intro h
    exact Except.noConfusion h
  · rfl

/-- C4 amended: when the first fetch returns any status other than 401, no
retry is performed (a single fetch, no `authenticate()` call); the response
is returned verbatim when its status is in the success range, and otherwise
the gateway throws `Error("API error: <status>")`. -/
theorem authorizedFetch_non401_no_retry
    (env : FetchEnv) (url : String) (options : RequestInit)
    (h : (env.fetchResp 0).status ≠ 401) :
    (authorizedFetch env url options).2 =
      [.fetchEv (mkRequest url options)] ∧
    countFetchEvents (authorizedFetch env url options).2 = 1 ∧
    countAuthEvents (authorizedFetch env url options).2 = 0 ∧
    ((env.fetchResp 0).ok = true →
      (authorizedFetch env url options).1 = .ok (env.fetchResp 0)) ∧
    ((env.fetchResp 0).ok = false →
      (authorizedFetch env url options).1 =
        .error
          (.error ("API error: " ++ toString (env.fetchResp 0).status))) := by
  unfold authorizedFetch
  cases hok : (env.fetchResp 0).ok <;>
    simp [h, hok, countFetchEvents, countAuthEvents]

/-- C4 witness: a 200 response comes back verbatim with no retry. -/
theorem authorizedFetch_non401_no_retry_witness :
    (authorizedFetch (envTwo ⟨200, .null⟩ ⟨200, .null⟩ true) "u"
        RequestInit.empty).2 =
      [.fetchEv (mkRequest "u" RequestInit.empty)] ∧
    countFetchEvents
      (authorizedFetch (envTwo ⟨200, .null⟩ ⟨200, .null⟩ true) "u"
        RequestInit.empty).2 = 1 ∧
    countAuthEvents
      (authorizedFetch (envTwo ⟨200, .null⟩ ⟨200, .null⟩ true) "u"
        RequestInit.empty).2 = 0 ∧
    (authorizedFetch (envTwo ⟨200, .null⟩ ⟨200, .null⟩ true) "u"
        RequestInit.empty).1 =
      .ok ((envTwo ⟨200, .null⟩ ⟨200, .null⟩ true).fetchResp 0) :=
  have h := authorizedFetch_non401_no_retry
    (envTwo ⟨200, .null⟩ ⟨200, .null⟩ true) "u" RequestInit.empty
    (by decide)
  ⟨h.1, h.2.1, h.2.2.1, h.2.2.2.1 rfl⟩

/-- C5 counterexample: a final 404 response makes the gateway throw a PLAIN
`Error("API error: 404")` — not an `ApiError` instance; and at the
`fetchWithAuth` boundary, where an `ApiError` is finally constructed, its
`status` field is 500, not the response's 404. -/
theorem authorizedFetch_apiError_kind_counterexample :
    (authorizedFetch (envTwo ⟨404, .null⟩ ⟨404, .null⟩ true) "u"
        RequestInit.empty).1 = .error (.error "API error: 404") ∧
    isApiErrorThrow
      (authorizedFetch (envTwo ⟨404, .null⟩ ⟨404, .null⟩ true) "u"
        RequestInit.empty).1 = false ∧
    fetchWithAuth (envTwo ⟨404, .null⟩ ⟨404, .null⟩ true)
        "http://localhost:8080" "/x" RequestInit.empty =
      .error ⟨"API error: 404", 500, none⟩ :=
  ⟨rfl, rfl, rfl⟩

/-- C5 amended: whenever the final (possibly retried) response status is
outside the success range — provided a 401 first response was followed by
successful re-authentication, since failed re-authentication throws earlier —
the gateway fails by throwing a plain `Error` whose MESSAGE is
`API error: <status>` (the status is carried in the message, not as the
`status` field of an `ApiError` instance), rather than returning the
response. -/
theorem authorizedFetch_failure_carries_status_in_message
    (env : FetchEnv) (url : String) (options : RequestInit)
    (himp : (env.fetchResp 0).status = 401 → env.authOk = true)
    (hok : (if (env.fetchResp 0).status = 401 then env.fetchResp 1
      else env.fetchResp 0).ok = false) :
    (authorizedFetch env url options).1 =
      .error (.error ("API error: " ++
        toString (if (env.fetchResp 0).status = 401 then env.fetchResp 1
          else env.fetchResp 0).status)) ∧
    isApiErrorThrow (authorizedFetch env url options).1 = false := by
  unfold authorizedFetch
  by_cases h401 : (env.fetchResp 0).status = 401
  · have hauth := himp h401
    rw [if_pos h401] at hok
    simp [h401, hauth, hok, isApiErrorThrow]
  · rw [if_neg h401] at hok
    simp [h401, hok, isApiErrorThrow]

/-- C5 witness: first response 404, not ok, no 401 involved. -/
theorem authorizedFetch_failure_carries_status_in_message_witness :
    (authorizedFetch (envTwo ⟨404, .null⟩ ⟨200, .null⟩ true) "u"
        RequestInit.empty).1 =
      .error (.error ("API error: " ++
        toString (if ((envTwo ⟨404, .null⟩ ⟨200, .null⟩ true).fetchResp
            0).status = 401 then
          (envTwo ⟨404, .null⟩ ⟨200, .null⟩ true).fetchResp 1
        else (envTwo ⟨404, .null⟩ ⟨200, .null⟩ true).fetchResp 0).status)) ∧
    isApiErrorThrow
      (authorizedFetch (envTwo ⟨404, .null⟩ ⟨200, .null⟩ true) "u"
        RequestInit.empty).1 = false :=
  authorizedFetch_failure_carries_status_in_message
    (envTwo ⟨404, .null⟩ ⟨200, .null⟩ true) "u" RequestInit.empty
    (fun _ => rfl) (by decide)

/-- C6: each `authenticate()` invocation issues exactly one request — a POST
to `$\x7bBASE_URL\x7d/oauth2/token` with a form-encoded body holding
`grant_type=client_credentials` and `scope=write` and a Basic authorization
header built from the client id and secret — returns `true` exactly when the
token response status is in the success range, and returns `false` (rather
than throwing: its total `Bool` result is the modelled boundary) on any
non-success status or network failure. -/
theorem authenticate_spec (env : AuthEnv) :
    (authenticate env).2 = [authTokenRequest env] ∧
    (authTokenRequest env).method = "POST" ∧
    (authTokenRequest env).url = env.baseUrl ++ "/oauth2/token" ∧
    (authTokenRequest env).contentType =
      "application/x-www-form-urlencoded" ∧
    ("grant_type", "client_credentials") ∈ (authTokenRequest env).formBody ∧
    ("scope", "write") ∈ (authTokenRequest env).formBody ∧
    (authTokenRequest env).authorization =
      "Basic " ++ base64 (env.clientId ++ ":" ++ env.clientSecret) ∧
    (authTokenRequest env).credentials = "include" ∧
    ((authenticate env).1 = true ↔
      ∃ r, env.tokenResult = .fetched r ∧ r.ok = true) := by
  refine ⟨?_, rfl, rfl, rfl, ?_, ?_, rfl, rfl, ?_⟩
  · cases henv : env.tokenResult with
    | fetched r => cases hr : r.ok <;> simp [authenticate, henv, hr]
    | netFailure m => simp [authenticate, henv]
  · simp [authTokenRequest]
  · simp [authTokenRequest]
  · cases henv : env.tokenResult with
    | fetched r =>
      cases hr : r.ok <;>
        simp [authenticate, henv, hr]
    | netFailure m => simp [authenticate, henv]

/-- Appending bindings: a lookup finds the appended (later) bindings first,
and falls back to the original map. -/
theorem lookupHeader_append (h tail : HeaderMap) (k : String) :
    lookupHeader (h ++ tail) k =
      (match lookupHeader tail k with
       | some v => some v
       | none => lookupHeader h k) := by
  induction h with
  | nil => cases hlt : lookupHeader tail k <;> simp [lookupHeader, hlt]
  | cons p rest ih =>
    obtain ⟨k0, v0⟩ := p
    cases hlt : lookupHeader tail k <;>
      simp [lookupHeader, ih, hlt]

/-- The forced header object: the JSON content-type and accept headers win
over any caller-supplied binding, every other key is passed through. -/
theorem forceHeaders_spec (h : HeaderMap) :
    lookupHeader (forceHeaders h) "Content-Type" = some "application/json" ∧
    lookupHeader (forceHeaders h) "Accept" = some "application/json" ∧
    ∀ k, k ≠ "Content-Type" → k ≠ "Accept" →
      lookupHeader (forceHeaders h) k = lookupHeader h k := by
  refine ⟨?_, ?_, ?_⟩
  · rw [forceHeaders, lookupHeader_append]; rfl
  · rw [forceHeaders, lookupHeader_append]; rfl
  · intro k hk1 hk2
    rw [forceHeaders, lookupHeader_append]
    have : lookupHeader
        [("Content-Type", "application/json"),
         ("Accept", "application/json")] k = none := by
      simp [lookupHeader, Ne.symm hk1, Ne.symm hk2]
    rw [this]

/-- Every fetch event in a gateway trace carries `mkRequest url options`. -/
theorem authorizedFetch_trace_requests
    (env : FetchEnv) (url : String) (options : RequestInit) :
    ∀ ev ∈ (authorizedFetch env url options).2,
      ev = .fetchEv (mkRequest url options) ∨ ev = Event.authEv := by
  unfold authorizedFetch
  by_cases h1 : (env.fetchResp 0).status = 401 <;>
  by_cases h2 : env.authOk = true <;>
  by_cases h3 : (env.fetchResp 1).ok = true <;>
  by_cases h4 : (env.fetchResp 0).ok = true <;>
    simp [h1, h2, h3, h4]

/-- C7: every request issued by `authorizedFetch` — initial attempt and
retry alike — targets the caller's url, carries
`Content-Type: application/json` and `Accept: application/json` (overriding
any conflicting caller-supplied binding) and `credentials: "include"`, and
passes the caller's method, body and all other headers through unchanged. -/
theorem authorizedFetch_forces_headers
    (env : FetchEnv) (url : String) (options : RequestInit) :
    ∀ ev ∈ (authorizedFetch env url options).2, ∀ req,
      ev = .fetchEv req →
      req = mkRequest url options ∧
      req.url = url ∧
      lookupHeader req.headers "Content-Type" = some "application/json" ∧
      lookupHeader req.headers "Accept" = some "application/json" ∧
      req.credentials = some "include" ∧
      req.method = options.method ∧
      req.body = options.body ∧
      (∀ k, k ≠ "Content-Type" → k ≠ "Accept" →
        lookupHeader req.headers k = lookupHeader options.headers k) := by
  intro ev hmem req hreq
  rcases authorizedFetch_trace_requests env url options ev hmem with h | h
  · rw [hreq] at h
    have hr : req = mkRequest url options := by
      injection h with h
    subst hr
    exact ⟨rfl, rfl, (forceHeaders_spec options.headers).1,
      (forceHeaders_spec options.headers).2.1, rfl, rfl, rfl,
      (forceHeaders_spec options.headers).2.2⟩
  · rw [hreq] at h
    exact Event.noConfusion h

/-- Caller options carrying a conflicting `Content-Type` binding and a
custom header. -/
def optsConflict : RequestInit :=
  ⟨some "POST", [("Content-Type", "text/plain"), ("X-Custom", "1")],
   some "payload", some "omit"⟩

/-- C7 witness: with a conflicting caller `Content-Type`, the issued request
still carries the forced JSON headers and credentials, and passes the
method, body and custom header through. -/
theorem authorizedFetch_forces_headers_witness :
    lookupHeader (mkRequest "u" optsConflict).headers "Content-Type" =
      some "application/json" ∧
    lookupHeader (mkRequest "u" optsConflict).headers "Accept" =
      some "application/json" ∧
    (mkRequest "u" optsConflict).credentials = some "include" ∧
    (mkRequest "u" optsConflict).method = optsConflict.method ∧
    (mkRequest "u" optsConflict).body = optsConflict.body ∧
    lookupHeader (mkRequest "u" optsConflict).headers "X-Custom" =
      lookupHeader optsConflict.headers "X-Custom" :=
  have h := authorizedFetch_forces_headers
    (envTwo ⟨200, .null⟩ ⟨200, .null⟩ true) "u" optsConflict
    (.fetchEv (mkRequest "u" optsConflict)) (List.Mem.head _)
    (mkRequest "u" optsConflict) rfl
  ⟨h.2.2.1, h.2.2.2.1, h.2.2.2.2.1, h.2.2.2.2.2.1, h.2.2.2.2.2.2.1,
   h.2.2.2.2.2.2.2 "X-Custom" (by decide) (by decide)⟩

/-- A list is a leading segment of itself followed by anything. -/
theorem isPrefixL_append (xs ys : List Char) :
    isPrefixL xs (xs ++ ys) = true := by
  induction xs with
  | nil => rfl
  | cons a as ih => simp [isPrefixL, ih]

/-- JS `s.startsWith(pre)`. -/
def strStartsWith (s pre : String) : Bool := isPrefixL pre.data s.data

/-- The wrapper error message for a Zod failure begins with
"Invalid data format". -/
theorem invalid_data_format_starts (zmsg : String) :
    strStartsWith ("Invalid data format: " ++ zmsg)
      "Invalid data format" = true := by
  unfold strStartsWith
  rw [String.data_append]
  have h : ("Invalid data format: ").data =
      ("Invalid data format").data ++ (": ").data := rfl
  rw [h, List.append_assoc]
  exact isPrefixL_append _ _

/-- C8: `getMenuItems` returns `\x7bsuccess: true, data\x7d` with the parsed
item list when the gateway succeeds and the body validates against
`z.array(menuItemSchema)`; returns `\x7bsuccess: false, error, code:
"VALIDATION_ERROR"\x7d` with an error message beginning with
"Invalid data format" when validation fails; and in every case produces an
`ActionResult` — each outcome is either a success or the catch block's
classification of a thrown error (nothing escapes unclassified). -/
theorem getMenuItems_spec (env : FetchEnv) (BASE_URL : String) :
    (∀ r items,
      (authorizedFetch env (BASE_URL ++ "/api/menu")
        RequestInit.empty).1 = .ok r →
      parseMenuItems r.body = .ok items →
      getMenuItems env BASE_URL = .success items) ∧
    (∀ r zmsg,
      (authorizedFetch env (BASE_URL ++ "/api/menu")
        RequestInit.empty).1 = .ok r →
      parseMenuItems r.body = .error zmsg →
      getMenuItems env BASE_URL =
        .failure ("Invalid data format: " ++ zmsg)
          (some "VALIDATION_ERROR") none ∧
      strStartsWith ("Invalid data format: " ++ zmsg)
        "Invalid data format" = true) ∧
    ((∃ items, getMenuItems env BASE_URL = .success items) ∨
     (∃ e, getMenuItems env BASE_URL = menuCatch e)) := by
  refine ⟨?_, ?_, ?_⟩
  · intro r items hok hparse
    unfold getMenuItems
    simp [hok, hparse]
  · intro r zmsg hok hparse
    refine ⟨?_, invalid_data_format_starts zmsg⟩
    unfold getMenuItems
    simp [hok, hparse, menuCatch]
  · unfold getMenuItems
    cases hfetch : (authorizedFetch env (BASE_URL ++ "/api/menu")
        RequestInit.empty).1 with
    | error e => exact Or.inr ⟨e, by simp⟩
    | ok r =>
      cases hparse : parseMenuItems r.body with
      | ok items => exact Or.inl ⟨items, by simp [hparse]⟩
      | error zmsg => exact Or.inr ⟨.zodError zmsg, by simp [hparse]⟩

/-- C8 witness: a 200 response with a valid one-item list succeeds; a 200
response whose body is not an array fails with a VALIDATION_ERROR result. -/
theorem getMenuItems_spec_witness :
    getMenuItems
      (envTwo ⟨200, .arr [.obj [("id", .str "1"), ("name", .str "Dosa")]]⟩
        ⟨200, .null⟩ true) "http://localhost:8080" =
      .success [⟨"1", "Dosa"⟩] ∧
    getMenuItems (envTwo ⟨200, .str "oops"⟩ ⟨200, .null⟩ true)
        "http://localhost:8080" =
      .failure ("Invalid data format: " ++ "Expected array, received other")
        (some "VALIDATION_ERROR") none :=
  ⟨(getMenuItems_spec
      (envTwo ⟨200, .arr [.obj [("id", .str "1"), ("name", .str "Dosa")]]⟩
        ⟨200, .null⟩ true) "http://localhost:8080").1
      ⟨200, .arr [.obj [("id", .str "1"), ("name", .str "Dosa")]]⟩
      [⟨"1", "Dosa"⟩] rfl rfl,
   ((getMenuItems_spec (envTwo ⟨200, .str "oops"⟩ ⟨200, .null⟩ true)
        "http://localhost:8080").2.1 ⟨200, .str "oops"⟩
      "Expected array, received other" rfl rfl).1⟩

/-- C9: every error thrown out of `authorizedFetch` into `fetchWithAuth` is
rethrown as an `ApiError`; the result is
`ApiError("Authentication failed", 401)` exactly when the underlying message
contains "API error: 401", and any other message is rethrown as an
`ApiError` with status 500 and the original message — so a non-401 HTTP
status (404, 500, ...) is not preserved in the `ApiError.status` field. -/
theorem fetchWithAuth_reclassifies_errors
    (env : FetchEnv) (API_URL endpoint : String) (options : RequestInit)
    (msg : String)
    (herr : (authorizedFetch env (API_URL ++ endpoint) options).1 =
      .error (.error msg)) :
    fetchWithAuth env API_URL endpoint options =
      .error (classifyFetchError msg) ∧
    (classifyFetchError msg = ⟨"Authentication failed", 401, none⟩ ↔
      strIncludes msg "API error: 401" = true) ∧
    (strIncludes msg "API error: 401" = false →
      classifyFetchError msg = ⟨msg, 500, none⟩) := by
  refine ⟨?_, ?_, ?_⟩
  · unfold fetchWithAuth
    simp [herr, JsError.message]
  · unfold classifyFetchError
    cases hinc : strIncludes msg "API error: 401" with
    | true => simp
    | false =>
      simp only [Bool.false_eq_true, if_false, iff_false]
      intro hcontra
      have : (500 : Nat) = 401 := congrArg ApiError.status hcontra
      exact absurd this (by decide)
  · intro hinc
    unfold classifyFetchError
    rw [hinc]
    rfl

/-- C9 witness: a 404 becomes `ApiError` with status 500, keeping the
original message; the 401 message test is decisive. -/
theorem fetchWithAuth_reclassifies_errors_witness :
    fetchWithAuth (envTwo ⟨404, .null⟩ ⟨404, .null⟩ true)
        "http://localhost:8080" "/api/menu" RequestInit.empty =
      .error (classifyFetchError "API error: 404") ∧
    (classifyFetchError "API error: 404" =
        ⟨"Authentication failed", 401, none⟩ ↔
      strIncludes "API error: 404" "API error: 401" = true) ∧
    classifyFetchError "API error: 404" = ⟨"API error: 404", 500, none⟩ :=
  have h := fetchWithAuth_reclassifies_errors
    (envTwo ⟨404, .null⟩ ⟨404, .null⟩ true) "http://localhost:8080"
    "/api/menu" RequestInit.empty "API error: 404" rfl
  ⟨h.1, h.2.1, h.2.2 rfl⟩

/-- The star cell rendered for one position: full/half/empty by the source's
branch conditions (the else-if guards are equivalent to the plain
conditions, because at most one of them can hold). -/
theorem starCell_spec (rating star : ℚ) :
    ((if star ≤ (⌊rating⌋ : ℚ) then StarKind.full
      else if star - 0.5 = rating then StarKind.half
      else StarKind.empty) = StarKind.full ↔ star ≤ (⌊rating⌋ : ℚ)) ∧
    ((if star ≤ (⌊rating⌋ : ℚ) then StarKind.full
      else if star - 0.5 = rating then StarKind.half
      else StarKind.empty) = StarKind.half ↔ star - 0.5 = rating) ∧
    ((if star ≤ (⌊rating⌋ : ℚ) then StarKind.full
      else if star - 0.5 = rating then StarKind.half
      else StarKind.empty) = StarKind.empty ↔
      (¬star ≤ (⌊rating⌋ : ℚ) ∧ ¬(star - 0.5 = rating))) := by
  have hfl : (⌊rating⌋ : ℚ) ≤ rating := Int.floor_le rating
  by_cases h1 : star ≤ (⌊rating⌋ : ℚ)
  · have h2 : ¬(star - 0.5 = rating) := by
      intro he
      linarith
    simp [h1, h2]
  · by_cases h2 : star - 0.5 = rating
    · simp [h1, h2]
    · simp [h1, h2]

/-- The cell at index `i` of the rendered list is the cell for star position
`i + 1`. -/
theorem StarRating_getD (rating : ℚ) (i : Fin 5) :
    (StarRating rating).getD i StarKind.empty =
      (if ((((i : ℕ) + 1 : ℕ)) : ℚ) ≤ (⌊rating⌋ : ℚ) then StarKind.full
       else if ((((i : ℕ) + 1 : ℕ)) : ℚ) - 0.5 = rating then StarKind.half
       else StarKind.empty) := by
  fin_cases i <;> norm_num [StarRating]

/-- C10: for every rating, `StarRating` renders exactly five cells; the cell
at 1-based position `i + 1` (zero-based index `i`) is a filled full star iff
`i + 1 <= Math.floor(rating)`, a filled half star iff
`(i + 1) - 0.5 = rating`, and an unfilled star otherwise — for negative,
fractional and greater-than-five ratings alike.  JS numbers are modelled as
rationals; for the doubles reaching this code the arithmetic
(`star - 0.5`, `Math.floor`) is exact, so the model is faithful. -/
theorem StarRating_spec (rating : ℚ) (i : Fin 5) :
    (StarRating rating).length = 5 ∧
    ((StarRating rating).getD i StarKind.empty = StarKind.full ↔
      ((((i : ℕ) + 1 : ℕ)) : ℚ) ≤ (⌊rating⌋ : ℚ)) ∧
    ((StarRating rating).getD i StarKind.empty = StarKind.half ↔
      ((((i : ℕ) + 1 : ℕ)) : ℚ) - 0.5 = rating) ∧
    ((StarRating rating).getD i StarKind.empty = StarKind.empty ↔
      (¬((((i : ℕ) + 1 : ℕ)) : ℚ) ≤ (⌊rating⌋ : ℚ) ∧
       ¬(((((i : ℕ) + 1 : ℕ)) : ℚ) - 0.5 = rating))) := by
  have hlen : (StarRating rating).length = 5 := by simp [StarRating]
  rw [StarRating_getD rating i]
  exact ⟨hlen, starCell_spec rating _⟩
